import Mathlib

set_option linter.unusedVariables false

/-!
Shallow embedding of the identity-management core of `litestar-users`
(`src/litestar_users/service.py`), together with models of its external
collaborators as described by the repository spec: the password manager
(`litestar_users.password.PasswordManager`, not under `src/`), the JWT
helpers (`litestar_users.jwt.generate_jwt` / `decode_jwt`, not under
`src/`) and the litestar `Token` codec.

Modelling conventions:
- User ids (UUID or integer in the source) are `Nat`; `str(user_id)` is
  `toString`, and the `UUID(...)`-with-`int(...)`-fallback parse in
  `verify` / `reset_password` is `String.toNat?` (an unparseable subject
  raises an uncaught `ValueError` in the source, modelled by `Err.valueError`).
- The configurable `user_auth_identifier` column is fixed to the `email`
  field (the source's default and the only identifier the OAuth2 and
  password-reset flows use).
- Password hashes are `(scheme, digest)` pairs; a correct hash scheme is
  modelled by `digest = plaintext`.  The head of `hash_schemes` is the
  preferred scheme, the rest are deprecated (passlib `deprecated="auto"`).
- Async repository calls become explicit state passing over `RepoState`;
  exceptions become `Except Err`.  Side effects that the claims observe
  (credential verification, token issuance, notifier and hook dispatch)
  are recorded in an `Event` trace.
- Fresh random values produced inside an operation (`uuid4()`, generated
  passwords, new primary keys) and the current clock are passed in as
  explicit arguments.
-/

namespace LitestarUsers

/-- A password hash: the scheme that produced it plus the digest.
A correct scheme is modelled by storing the plaintext as the digest. -/
structure PwHash where
  scheme : String
  digest : String
deriving DecidableEq, Repr

/-- One linked OAuth provider account (`OAuthAccount` ORM model). -/
structure OAuthAccount where
  id : Nat
  user_id : Nat
  oauth_name : String
  account_id : String
  account_email : String
  access_token : String
  expires_at : Option Nat
  refresh_token : Option String
deriving DecidableEq, Repr

/-- A role record (`Role` ORM model). -/
structure Role where
  id : Nat
  name : String
deriving DecidableEq, Repr

/-- A user record (`User` ORM model).  `roles` holds role ids and
`oauth_accounts` the linked provider accounts, as loaded relations. -/
structure User where
  id : Nat
  email : String
  password_hash : PwHash
  is_active : Bool
  is_verified : Bool
  roles : List Nat
  oauth_accounts : List OAuthAccount
deriving DecidableEq, Repr

/-- The persistent store backing the repositories. -/
structure RepoState where
  users : List User
  roles : List Role
deriving DecidableEq, Repr

/-- Errors raised by the service, one constructor per Python exception
class that the embedded code can raise. -/
inductive Err where
  | notFound
  | integrityError (msg : String)
  | invalidToken
  | improperlyConfigured
  | httpException (status : Nat) (detail : String)
  | keyError (key : String)
  | valueError
deriving DecidableEq, Repr

/-- Side effects observed by the claims, recorded in order of occurrence. -/
inductive Event where
  | credVerify (plain : String) (stored : Option PwHash)
  | tokenGenerated (sub : String) (aud : String)
  | notifierVerification (userId : Nat)
  | notifierPasswordReset (userId : Nat)
  | postLoginHook (userId : Nat)
  | postRegistrationHook (userId : Nat)
  | postVerificationHook (userId : Nat)
deriving DecidableEq, Repr

/-- Modelled from the spec: `litestar_users.password.PasswordManager`,
a wrapper around a passlib `CryptContext` with a ranked list of hash
schemes (head preferred, rest deprecated). -/
structure PasswordManager where
  hash_schemes : List String
deriving DecidableEq, Repr

/-- Modelled from the spec: hashing under the preferred (first) scheme. -/
def PasswordManager.hash (pm : PasswordManager) (plain : String) : PwHash :=
  ⟨pm.hash_schemes.headD "argon2", plain⟩

/-- Modelled from the spec: passlib `verify_and_update`.  With no stored
hash a dummy verification runs and the result is `(false, none)`; a match
under a deprecated (non-head) scheme additionally returns the upgraded
hash under the preferred scheme. -/
def PasswordManager.verify_and_update (pm : PasswordManager) (plain : String)
    (stored : Option PwHash) : Bool × Option PwHash :=
  match stored with
  | none => (false, none)
  | some h =>
    if h.digest == plain && pm.hash_schemes.contains h.scheme then
      if h.scheme == pm.hash_schemes.headD "argon2" then (true, none)
      else (true, some (pm.hash plain))
    else (false, none)

/-- The service configuration (`BaseUserService.__init__`).  The optional
role and oauth2 repositories are modelled by capability flags; the hooks
keep their default (no-op) bodies, except the pre-login hook whose boolean
result is passed to `authenticate` explicitly. -/
structure UserService where
  secret : String
  password_manager : PasswordManager
  roles_configured : Bool
  oauth2_configured : Bool
  require_verification_on_registration : Bool
deriving DecidableEq, Repr

/-! ### Token codec (litestar `Token`, HS256) -/

/-- The claim set of a litestar JWT `Token`: expiry, subject, audience. -/
structure Token where
  exp : Nat
  sub : String
  aud : String
deriving DecidableEq, Repr

/-- An encoded token: the payload plus its signature.  HMAC with a
symmetric secret is modelled by storing the secret as the signature, so
two signatures agree exactly when the secrets do. -/
structure EncodedToken where
  payload : Token
  sig : String
deriving DecidableEq, Repr

/-- `Token.encode(secret, "HS256")`. -/
def Token.encode (t : Token) (secret : String) : EncodedToken :=
  ⟨t, secret⟩

/-- `Token.decode`: fails (litestar raises `NotAuthorizedException`) when
the signature does not verify or the token is expired. -/
def Token.decode (enc : EncodedToken) (secret : String) (now : Nat) :
    Except Unit Token :=
  if enc.sig == secret && decide (now < enc.payload.exp) then .ok enc.payload
  else .error ()

/-! ### State-token JWT helpers (`litestar_users.jwt`) -/

def STATE_TOKEN_AUDIENCE : String := "litestar-users:oauth2-state"

/-- Claims of a state JWT: the data dict, expiry and signature.  The dict
is an association list consumed only through `lookupKey`. -/
structure StateToken where
  data : List (String × String)
  exp : Nat
  sig : String
deriving DecidableEq, Repr

/-- Dict assignment `d[k] = v`, modelled by shadowing: lookups only ever
see the first binding of a key. -/
def setKey (l : List (String × String)) (k v : String) :
    List (String × String) :=
  (k, v) :: l

/-- Dict lookup returning `none` for a missing key. -/
def lookupKey (l : List (String × String)) (k : String) : Option String :=
  (l.find? (fun p => p.1 == k)).map (fun p => p.2)

/-- Modelled from the spec: `litestar_users.jwt.generate_jwt` signs the
data dict with the secret and an expiry of `now + lifetime_seconds`. -/
def generate_jwt (data : List (String × String)) (secret : String)
    (lifetime_seconds : Nat) (now : Nat) : StateToken :=
  ⟨data, now + lifetime_seconds, secret⟩

/-- Modelled from the spec: `litestar_users.jwt.decode_jwt` verifies the
signature, the expiry and that the embedded audience is among the expected
audiences, failing (PyJWT `DecodeError`) otherwise. -/
def decode_jwt (tok : StateToken) (secret : String) (audiences : List String)
    (now : Nat) : Except Unit (List (String × String)) :=
  if tok.sig == secret && decide (now < tok.exp) &&
      (match lookupKey tok.data "aud" with
       | some a => audiences.contains a
       | none => false) then
    .ok tok.data
  else .error ()

/-- `generate_state_token`: sets `data["aud"]` to the fixed OAuth2 state
audience and signs the dict. -/
def generate_state_token (data : List (String × String)) (secret : String)
    (lifetime_seconds : Nat) (now : Nat) : StateToken :=
  generate_jwt (setKey data "aud" STATE_TOKEN_AUDIENCE) secret
    lifetime_seconds now

/-! ### Repository operations -/

/-- ASCII lowercasing (`str.lower()` / SQL `func.lower`), written over the
character list so that it evaluates by kernel reduction. -/
def lower (s : String) : String :=
  ⟨s.data.map Char.toLower⟩

/-- Case-insensitive lookup by the auth identifier (email), as in
`func.lower(User.email) == email.lower()`. -/
def findUserByEmailCI (st : RepoState) (email : String) : Option User :=
  st.users.find? (fun u => lower u.email == lower email)

/-- `user_repository.get(id_)` result without the exception wrapper. -/
def findUserById (st : RepoState) (id_ : Nat) : Option User :=
  st.users.find? (fun u => u.id == id_)

/-- `role_repository.get(id_)` result without the exception wrapper. -/
def findRoleById (st : RepoState) (id_ : Nat) : Option Role :=
  st.roles.find? (fun r => r.id == id_)

/-- Persist an updated user row, replacing the row with the same id. -/
def RepoState.updateUser (st : RepoState) (u : User) : RepoState :=
  { st with users := st.users.map (fun v => if v.id == u.id then u else v) }

/-- The creation fields the callback builds for a new `OAuthAccount`
(`oauth_account_dict`). -/
structure OAuthAccountData where
  oauth_name : String
  access_token : String
  account_id : String
  account_email : String
  expires_at : Option Nat
  refresh_token : Option String
deriving DecidableEq, Repr

/-- `oauth2_repository.add_oauth_account(user, oauth_account_dict)`:
create the account under a fresh primary key, link it to the user and
persist; returns the refreshed user. -/
def RepoState.add_oauth_account (st : RepoState) (u : User)
    (d : OAuthAccountData) (freshAcctId : Nat) : User × RepoState :=
  let acct : OAuthAccount :=
    { id := freshAcctId, user_id := u.id, oauth_name := d.oauth_name,
      account_id := d.account_id, account_email := d.account_email,
      access_token := d.access_token, expires_at := d.expires_at,
      refresh_token := d.refresh_token }
  let u' := { u with oauth_accounts := u.oauth_accounts ++ [acct] }
  (u', st.updateUser u')

/-- `oauth2_repository.update_oauth_account`: refresh the stored tokens of
an existing linked account from the provider response. -/
def updateOAuthAccount (a : OAuthAccount) (d : OAuthAccountData) :
    OAuthAccount :=
  { a with
    account_email := d.account_email, access_token := d.access_token,
    expires_at := d.expires_at, refresh_token := d.refresh_token }

/-! ### Identity service operations -/

/-- `BaseUserService.add_user`: reject (IntegrityError) when the auth
identifier already exists case-insensitively, else persist with the given
verification and activation flags. -/
def add_user (svc : UserService) (st : RepoState) (user : User)
    (verify : Bool) (activate : Bool) : Except Err (User × RepoState) :=
  if st.users.any (fun ex => lower ex.email == lower user.email) then
    .error (.integrityError "email already associated with an account")
  else
    let u' := { user with is_verified := verify, is_active := activate }
    .ok (u', { st with users := st.users ++ [u'] })

/-- `BaseUserService.generate_token`: a 24-hour token with the stringified
user id as subject, signed with the service secret.  `issued` is the
clock value of `datetime.now()`. -/
def generate_token (svc : UserService) (user_id : Nat) (aud : String)
    (issued : Nat) : EncodedToken :=
  Token.encode ⟨issued + 60 * 60 * 24, toString user_id, aud⟩ svc.secret

/-- `BaseUserService.register` (with the default no-op hooks): hash the
password, create the user via `add_user` with
`verify = not require_verification_on_registration`, and when verification
is required issue a verification token and dispatch the notifier. -/
def register (svc : UserService) (st : RepoState) (email password : String)
    (newId : Nat) (issued : Nat) :
    Except Err (User × RepoState × List Event) :=
  let ph := svc.password_manager.hash password
  let verify := !svc.require_verification_on_registration
  match add_user svc st
      { id := newId, email := email, password_hash := ph,
        is_active := true, is_verified := false, roles := [],
        oauth_accounts := [] } verify true with
  | .error e => .error e
  | .ok (u, st') =>
    let verification_events :=
      if svc.require_verification_on_registration then
        [Event.tokenGenerated (toString u.id) "verify",
         Event.notifierVerification u.id]
      else []
    .ok (u, st', verification_events ++ [Event.postRegistrationHook u.id])

/-- Result of `authenticate`: the returned user (or the uniform failure
value `none`), the repository state after the call, and the observed
effects. -/
structure AuthResult where
  user : Option User
  state : RepoState
  events : List Event
deriving DecidableEq, Repr

/-- `BaseUserService.authenticate`.  The pre-login hook's boolean result
is the `should_proceed` argument, captured before any early return as in
the source.  On a missing user a dummy credential verification still runs;
on a match under a deprecated scheme the upgraded hash is persisted before
the final accept/reject decision. -/
def authenticate (svc : UserService) (st : RepoState)
    (ident password : String) (should_proceed : Bool) : AuthResult :=
  match findUserByEmailCI st ident with
  | none =>
    { user := none, state := st,
      events := [Event.credVerify password none] }
  | some user =>
    let vr := svc.password_manager.verify_and_update password
      (some user.password_hash)
    let password_verified := vr.1
    let upd : User × RepoState :=
      match vr.2 with
      | some new_password_hash =>
        let u' := { user with password_hash := new_password_hash }
        (u', st.updateUser u')
      | none => (user, st)
    if !password_verified || !should_proceed then
      { user := none, state := upd.2,
        events := [Event.credVerify password (some user.password_hash)] }
    else
      { user := some upd.1, state := upd.2,
        events := [Event.credVerify password (some user.password_hash),
                   Event.postLoginHook upd.1.id] }

/-- `BaseUserService._decode_and_verify_token`: decode failures become
`InvalidToken`, as does an audience different from the context. -/
def decode_and_verify_token (svc : UserService) (enc : EncodedToken)
    (context : String) (now : Nat) : Except Err Token :=
  match Token.decode enc svc.secret now with
  | .error _ => .error .invalidToken
  | .ok token =>
    if token.aud != context then .error .invalidToken
    else .ok token

/-- The `UUID(token.sub)`-then-`int(token.sub)` parse of a token subject
back to a user id (ids being modelled as `Nat`): the digits of the
subject, or `none` (Python `ValueError`) when it is not a numeral. -/
def parse_user_id (s : String) : Option Nat :=
  if s.data ≠ [] ∧ s.data.all Char.isDigit then
    some (s.data.foldl (fun n c => n * 10 + (c.toNat - 48)) 0)
  else none

/-- `BaseUserService.verify`: decode with audience `verify`, parse the
subject, set `is_verified := true` on that user; a missing user row
(`NotFoundError`) is converted to `InvalidToken`. -/
def verify (svc : UserService) (st : RepoState) (enc : EncodedToken)
    (now : Nat) : Except Err (User × RepoState × List Event) :=
  match decode_and_verify_token svc enc "verify" now with
  | .error e => .error e
  | .ok token =>
    match parse_user_id token.sub with
    | none => .error .valueError
    | some user_id =>
      match findUserById st user_id with
      | none => .error .invalidToken
      | some u =>
        let u' := { u with is_verified := true }
        .ok (u', st.updateUser u', [Event.postVerificationHook u'.id])

/-- `BaseUserService.initiate_password_reset`: look up the email
case-insensitively; when absent, still generate (and discard) a token for
a fresh random subject and return silently; when present, generate the
token and dispatch the notifier.  Returns the (valueless) result and the
observed effects. -/
def initiate_password_reset (svc : UserService) (st : RepoState)
    (email : String) (freshUuid : Nat) : Unit × List Event :=
  match findUserByEmailCI st email with
  | none =>
    ((), [Event.tokenGenerated (toString freshUuid) "reset_password"])
  | some user =>
    ((), [Event.tokenGenerated (toString user.id) "reset_password",
          Event.notifierPasswordReset user.id])

/-- `BaseUserService.reset_password`: decode with audience
`reset_password`, parse the subject, persist the freshly hashed password;
a missing user row (`NotFoundError`) is converted to `InvalidToken`. -/
def reset_password (svc : UserService) (st : RepoState)
    (enc : EncodedToken) (password : String) (now : Nat) :
    Except Err RepoState :=
  match decode_and_verify_token svc enc "reset_password" now with
  | .error e => .error e
  | .ok token =>
    match parse_user_id token.sub with
    | none => .error .valueError
    | some user_id =>
      match findUserById st user_id with
      | none => .error .invalidToken
      | some u =>
        let u' := { u with
          password_hash := svc.password_manager.hash password }
        .ok (st.updateUser u')

/-- `BaseUserService.assign_role`: Unconfigured without a role repository;
NotFound when user or role is absent; Conflict (IntegrityError) when the
user already holds the role; else persist the association. -/
def assign_role (svc : UserService) (st : RepoState)
    (user_id role_id : Nat) : Except Err (User × RepoState) :=
  if !svc.roles_configured then .error .improperlyConfigured
  else
    match findUserById st user_id with
    | none => .error .notFound
    | some user =>
      match findRoleById st role_id with
      | none => .error .notFound
      | some role =>
        if user.roles.contains role.id then
          .error (.integrityError "user already has role")
        else
          let u' := { user with roles := user.roles ++ [role.id] }
          .ok (u', st.updateUser u')

/-- `BaseUserService.revoke_role`: the mirror of `assign_role`: Conflict
(IntegrityError) when the user does not hold the role. -/
def revoke_role (svc : UserService) (st : RepoState)
    (user_id role_id : Nat) : Except Err (User × RepoState) :=
  if !svc.roles_configured then .error .improperlyConfigured
  else
    match findUserById st user_id with
    | none => .error .notFound
    | some user =>
      match findRoleById st role_id with
      | none => .error .notFound
      | some role =>
        if !user.roles.contains role.id then
          .error (.integrityError "user does not have role")
        else
          let u' :=
            { user with roles := user.roles.filter (fun r => r != role.id) }
          .ok (u', st.updateUser u')

/-! ### OAuth2 linking engine -/

/-- `BaseUserService.get_by_oauth_account`: the owner of the OAuthAccount
with the given `(oauth_name, account_id)` pair, or `NotFoundError`. -/
def get_by_oauth_account (st : RepoState) (oauth : String)
    (account_id : String) : Except Err User :=
  match st.users.find? (fun u => u.oauth_accounts.any
      (fun a => a.oauth_name == oauth && a.account_id == account_id)) with
  | some user => .ok user
  | none => .error .notFound

/-- `BaseUserService.get_user_by(email=account_email)`: exact-match
lookup, as `get_one_or_none(email=...)` compares the column directly. -/
def get_user_by_email (st : RepoState) (email : String) : Option User :=
  st.users.find? (fun u => u.email == email)

/-- `BaseUserService._oauth2_callback`, translated branch for branch:

1. decode the state token (signature/audience only), a failure being a
   400 response;
2. if an OAuthAccount exists for `(oauth_name, account_id)`, refresh the
   matching linked accounts' tokens and return the owner;
3. otherwise, if a user exists with `account_email`, attach the new OAuth
   account to that user (note: without consulting `associate_by_email`);
4. otherwise, when `associate_by_email` is false fail 400
   "User already exists.", else create a fresh user with a generated
   password, attach the account and run the post-registration hook. -/
def oauth2_callback_flow (svc : UserService) (st : RepoState)
    (oauth_name account_id account_email : String)
    (associate_by_email is_verified_by_default : Bool)
    (state : StateToken) (state_secret : String) (d : OAuthAccountData)
    (now freshUserId freshAcctId : Nat) (generated_password : String) :
    Except Err (User × RepoState × List Event) :=
  if !svc.oauth2_configured then .error .improperlyConfigured
  else
    match decode_jwt state state_secret [STATE_TOKEN_AUDIENCE] now with
    | .error _ => .error (.httpException 400 "state token decode error")
    | .ok _ =>
      match get_by_oauth_account st oauth_name account_id with
      | .ok user =>
        let matching := fun (a : OAuthAccount) =>
          a.account_id == account_id && a.oauth_name == oauth_name
        let user' := { user with
          oauth_accounts := user.oauth_accounts.map
            (fun a => if matching a then updateOAuthAccount a d else a) }
        .ok (user', st.updateUser user', [])
      | .error _ =>
        match get_user_by_email st account_email with
        | some user =>
          let r := st.add_oauth_account user d freshAcctId
          .ok (r.1, r.2, [])
        | none =>
          if !associate_by_email then
            .error (.httpException 400 "User already exists.")
          else
            let new_user : User :=
              { id := freshUserId, email := account_email,
                password_hash := svc.password_manager.hash
                  generated_password,
                is_verified := is_verified_by_default, is_active := true,
                roles := [], oauth_accounts := [] }
            let st1 : RepoState :=
              { st with users := st.users ++ [new_user] }
            let r := st1.add_oauth_account new_user d freshAcctId
            .ok (r.1, r.2, [Event.postRegistrationHook r.1.id])

/-- `BaseUserService._oauth2_associate_callback`: decode the state token
(failure is a 400 response); read its `sub` claim (a missing key is an
uncaught Python `KeyError`); a subject different from the stringified id
of the authenticated user is a 400 response; on match attach the OAuth
account unconditionally. -/
def oauth2_associate_callback (svc : UserService) (st : RepoState)
    (associate_user : User) (state : StateToken) (state_secret : String)
    (d : OAuthAccountData) (now freshAcctId : Nat) :
    Except Err (User × RepoState) :=
  if !svc.oauth2_configured then .error .improperlyConfigured
  else
    match decode_jwt state state_secret [STATE_TOKEN_AUDIENCE] now with
    | .error _ => .error (.httpException 400 "state token decode error")
    | .ok state_data =>
      match lookupKey state_data "sub" with
      | none => .error (.keyError "sub")
      | some sub =>
        if sub != toString associate_user.id then
          .error (.httpException 400 "")
        else
          .ok (st.add_oauth_account associate_user d freshAcctId)

/-! ### Concrete fixtures used by witnesses and counterexample runs -/

def pmX : PasswordManager := ⟨["argon2", "bcrypt"]⟩

def svcX : UserService := ⟨"sec", pmX, true, true, true⟩

def aliceX : User :=
  ⟨1, "Alice@Example.com", ⟨"argon2", "pw1"⟩, true, true, [], []⟩

def carolX : User :=
  ⟨2, "carol@x.com", ⟨"bcrypt", "pw2"⟩, true, true, [], []⟩

def rolesX : List Role := [⟨7, "admin"⟩]

def stX : RepoState := ⟨[aliceX, carolX], rolesX⟩

/-! ### Claim theorems -/

/-- C2: `authenticate` returns the user exactly when the supplied password
verifies against the stored hash and the pre-login hook returned true; in
every other case, including an identifier with no case-insensitive match
(where the dummy credential verification still runs), it returns the
uniform failure value `none`. -/
theorem authenticate_success_iff (svc : UserService) (st : RepoState)
    (ident password : String) (should_proceed : Bool) :
    (findUserByEmailCI st ident = none →
      (authenticate svc st ident password should_proceed).user = none ∧
      Event.credVerify password none ∈
        (authenticate svc st ident password should_proceed).events) ∧
    (∀ u, findUserByEmailCI st ident = some u →
      (authenticate svc st ident password should_proceed).user.isSome =
        ((svc.password_manager.verify_and_update password
            (some u.password_hash)).1 && should_proceed)) := by
  constructor
  · intro h
    simp [authenticate, h]
  · intro u h
    simp only [authenticate, h]
    rcases hv : svc.password_manager.verify_and_update password
      (some u.password_hash) with ⟨verified, newHash⟩
    cases newHash <;> cases verified <;> cases should_proceed <;> simp

/-- Witness for C2 at concrete inputs: a missing identifier yields `none`
with the dummy verification, and an existing identifier yields the
password-and-hook conjunction. -/
theorem authenticate_success_iff_witness :
    ((authenticate svcX stX "bob@x.com" "pw" true).user = none ∧
      Event.credVerify "pw" none ∈
        (authenticate svcX stX "bob@x.com" "pw" true).events) ∧
    (authenticate svcX stX "alice@example.com" "pw1" true).user.isSome =
      ((svcX.password_manager.verify_and_update "pw1"
          (some aliceX.password_hash)).1 && true) := by
  constructor
  · exact (authenticate_success_iff svcX stX "bob@x.com" "pw" true).1
      (by decide)
  · exact (authenticate_success_iff svcX stX "alice@example.com" "pw1"
      true).2 aliceX (by decide)

/-- C9: a login rejected only because the pre-login hook returned false
still persists the upgraded password hash when the stored hash used a
deprecated scheme and the password matched: the result is `none`, yet the
state is the original state with exactly that user's `password_hash`
replaced by the preferred-scheme hash (all other fields unchanged). -/
theorem authenticate_rehash_persists_on_rejected_login
    (svc : UserService) (st : RepoState) (ident password : String)
    (user : User)
    (hfind : findUserByEmailCI st ident = some user)
    (hdigest : user.password_hash.digest = password)
    (hscheme : svc.password_manager.hash_schemes.contains
      user.password_hash.scheme = true)
    (hdep : user.password_hash.scheme ≠
      svc.password_manager.hash_schemes.headD "argon2") :
    (authenticate svc st ident password false).user = none ∧
    (authenticate svc st ident password false).state =
      st.updateUser
        { user with password_hash := svc.password_manager.hash password } := by
  have hmem : user.password_hash.scheme ∈
      svc.password_manager.hash_schemes := by
    simpa using hscheme
  have hne : user.password_hash.scheme ≠
      svc.password_manager.hash_schemes.head?.getD "argon2" := by
    simpa [List.headD_eq_head?] using hdep
  have hv : svc.password_manager.verify_and_update password
      (some user.password_hash) =
      (true, some (svc.password_manager.hash password)) := by
    simp [PasswordManager.verify_and_update, hdigest, hmem, hne]
  simp [authenticate, hfind, hv]

/-- Witness for C9: `carolX` holds a matching hash under the deprecated
`bcrypt` scheme; a hook-rejected login still rewrites it to `argon2`. -/
theorem authenticate_rehash_persists_on_rejected_login_witness :
    (authenticate svcX stX "carol@x.com" "pw2" false).user = none ∧
    (authenticate svcX stX "carol@x.com" "pw2" false).state =
      stX.updateUser
        { carolX with password_hash := svcX.password_manager.hash "pw2" } :=
  authenticate_rehash_persists_on_rejected_login svcX stX "carol@x.com"
    "pw2" carolX (by decide) (by decide) (by decide) (by decide)

/-- C3: a correctly-signed, unexpired token whose subject parses to an id
with no matching user row makes both `verify` and `reset_password` fail
with `InvalidToken` — never with `NotFound`. -/
theorem verify_and_reset_missing_user_invalid_token
    (svc : UserService) (st : RepoState) (enc : EncodedToken)
    (now : Nat) (uid : Nat) (password : String)
    (hsig : enc.sig = svc.secret)
    (hexp : now < enc.payload.exp)
    (hparse : parse_user_id enc.payload.sub = some uid)
    (habsent : findUserById st uid = none) :
    verify svc st enc now = .error .invalidToken ∧
    reset_password svc st enc password now = .error .invalidToken := by
  have hdec : Token.decode enc svc.secret now = .ok enc.payload := by
    simp [Token.decode, hsig, hexp]
  constructor
  · by_cases haud : enc.payload.aud = "verify"
    · simp [verify, decode_and_verify_token, hdec, haud, hparse, habsent]
    · simp [verify, decode_and_verify_token, hdec, haud]
  · by_cases haud : enc.payload.aud = "reset_password"
    · simp [reset_password, decode_and_verify_token, hdec, haud, hparse,
        habsent]
    · simp [reset_password, decode_and_verify_token, hdec, haud]

/-- Witness for C3: a service-issued verification token for the
nonexistent user id 42 fails both flows with `InvalidToken`. -/
theorem verify_and_reset_missing_user_invalid_token_witness :
    verify svcX stX (generate_token svcX 42 "verify" 0) 100 =
      .error .invalidToken ∧
    reset_password svcX stX (generate_token svcX 42 "verify" 0) "np" 100 =
      .error .invalidToken :=
  verify_and_reset_missing_user_invalid_token svcX stX
    (generate_token svcX 42 "verify" 0) 100 42 "np" (by decide) (by decide)
    (by decide) (by decide)

/-- C4: a token issued with audience `verify` fails
`_decode_and_verify_token` against context `reset_password` and vice
versa (whether or not it is expired), and any token whose expiry has
passed fails with `InvalidToken` even when its signature is the service
secret. -/
theorem token_cross_audience_and_expiry_invalid
    (svc : UserService) (uid : Nat) (issued now : Nat)
    (enc : EncodedToken) (context : String)
    (hexp : enc.payload.exp ≤ now) :
    decode_and_verify_token svc (generate_token svc uid "verify" issued)
      "reset_password" now = .error .invalidToken ∧
    decode_and_verify_token svc
      (generate_token svc uid "reset_password" issued) "verify" now =
      .error .invalidToken ∧
    decode_and_verify_token svc enc context now = .error .invalidToken := by
  refine ⟨?_, ?_, ?_⟩
  · by_cases h : now < issued + 60 * 60 * 24 <;>
      simp [decode_and_verify_token, generate_token, Token.encode,
        Token.decode, h]
  · by_cases h : now < issued + 60 * 60 * 24 <;>
      simp [decode_and_verify_token, generate_token, Token.encode,
        Token.decode, h]
  · have h : ¬ now < enc.payload.exp := by omega
    simp [decode_and_verify_token, Token.decode, h]

/-- Witness for C4: a verification token checked against the
password-reset context (and vice versa), and an expired token with the
correct signature. -/
theorem token_cross_audience_and_expiry_invalid_witness :
    decode_and_verify_token svcX (generate_token svcX 1 "verify" 0)
      "reset_password" 10 = .error .invalidToken ∧
    decode_and_verify_token svcX
      (generate_token svcX 1 "reset_password" 0) "verify" 10 =
      .error .invalidToken ∧
    decode_and_verify_token svcX (generate_token svcX 1 "verify" 0)
      "verify" 86400 = .error .invalidToken :=
  token_cross_audience_and_expiry_invalid svcX 1 0 86400
    (generate_token svcX 1 "verify" 0) "verify" (by decide)

/-- C7: `initiate_password_reset` returns the same valueless result
whether or not the email exists; when no user matches, a token for the
fresh random subject is still generated (and discarded) and no
password-reset notifier is dispatched. -/
theorem initiate_password_reset_uniform
    (svc : UserService) (st : RepoState) (email : String)
    (freshUuid : Nat) :
    (initiate_password_reset svc st email freshUuid).1 = () ∧
    (findUserByEmailCI st email = none →
      (initiate_password_reset svc st email freshUuid).2 =
        [Event.tokenGenerated (toString freshUuid) "reset_password"] ∧
      ∀ uid, Event.notifierPasswordReset uid ∉
        (initiate_password_reset svc st email freshUuid).2) := by
  constructor
  · rfl
  · intro h
    simp [initiate_password_reset, h]

/-- Witness for C7 at a concrete absent email. -/
theorem initiate_password_reset_uniform_witness :
    (initiate_password_reset svcX stX "nobody@x.com" 99).1 = () ∧
    ((initiate_password_reset svcX stX "nobody@x.com" 99).2 =
        [Event.tokenGenerated (toString (99 : Nat)) "reset_password"] ∧
      ∀ uid, Event.notifierPasswordReset uid ∉
        (initiate_password_reset svcX stX "nobody@x.com" 99).2) :=
  ⟨(initiate_password_reset_uniform svcX stX "nobody@x.com" 99).1,
    (initiate_password_reset_uniform svcX stX "nobody@x.com" 99).2
      (by decide)⟩

/-- Replacing the row with id `i` in a user list rewrites exactly the row
that `find?` by that id returns. -/
theorem find?_update_of_found (l : List User) (i : Nat) (u u' : User)
    (hid : u'.id = i)
    (h : l.find? (fun v => v.id == i) = some u) :
    (l.map (fun v => if v.id == u'.id then u' else v)).find?
      (fun v => v.id == i) = some u' := by
  induction l with
  | nil => simp at h
  | cons a t ih =>
    rw [List.map_cons]
    by_cases ha : a.id = i
    · have h1 : (if a.id == u'.id then u' else a) = u' := by
        simp [ha, hid]
      rw [h1, List.find?_cons_of_pos]
      simp [hid]
    · have h1 : (if a.id == u'.id then u' else a) = a := by
        simp [hid, ha]
      rw [h1, List.find?_cons_of_neg _ (by simp [ha])]
      rw [List.find?_cons_of_neg _ (by simp [ha])] at h
      exact ih h

/-- C5: registering a fresh identifier succeeds, and registering again
under any casing variation of that identifier fails with the Conflict
(IntegrityError) raised by the case-insensitive existence check, leaving
the stored state untouched. -/
theorem register_twice_conflict (svc : UserService) (st : RepoState)
    (email email2 password password2 : String)
    (newId newId2 issued issued2 : Nat)
    (hfresh : st.users.any (fun u => lower u.email == lower email) = false)
    (hcase : lower email2 = lower email) :
    ∃ u st' ev,
      register svc st email password newId issued = .ok (u, st', ev) ∧
      register svc st' email2 password2 newId2 issued2 =
        .error (.integrityError "email already associated with an account") := by
  have h1 : register svc st email password newId issued =
      .ok ({ id := newId, email := email,
             password_hash := svc.password_manager.hash password,
             is_active := true,
             is_verified := !svc.require_verification_on_registration,
             roles := [], oauth_accounts := [] },
           { st with users := st.users ++
             [{ id := newId, email := email,
                password_hash := svc.password_manager.hash password,
                is_active := true,
                is_verified := !svc.require_verification_on_registration,
                roles := [], oauth_accounts := [] }] },
           (if svc.require_verification_on_registration then
              [Event.tokenGenerated (toString newId) "verify",
               Event.notifierVerification newId]
            else []) ++ [Event.postRegistrationHook newId]) := by
    simp [register, add_user, hfresh]
  refine ⟨_, _, _, h1, ?_⟩
  simp [register, add_user, List.any_append, hcase, hfresh]

/-- Witness for C5: registering `bob@x.com` then `BOB@X.com`. -/
theorem register_twice_conflict_witness :
    ∃ u st' ev,
      register svcX stX "bob@x.com" "p" 5 0 = .ok (u, st', ev) ∧
      register svcX st' "BOB@X.com" "q" 6 0 =
        .error (.integrityError "email already associated with an account") :=
  register_twice_conflict svcX stX "bob@x.com" "BOB@X.com" "p" "q" 5 6 0 0
    (by decide) (by decide)

/-- C6: for an existing user and role where the user does not yet hold the
role, `assign_role` succeeds and a second identical `assign_role` fails
with Conflict (IntegrityError), while `revoke_role` on the original state
also fails with Conflict. -/
theorem assign_assign_revoke_role_conflict (svc : UserService)
    (st : RepoState) (user_id role_id : Nat) (user : User) (role : Role)
    (hconf : svc.roles_configured = true)
    (huser : findUserById st user_id = some user)
    (hrole : findRoleById st role_id = some role)
    (hnot : user.roles.contains role.id = false) :
    (∃ u1 st1, assign_role svc st user_id role_id = .ok (u1, st1) ∧
      assign_role svc st1 user_id role_id =
        .error (.integrityError "user already has role")) ∧
    revoke_role svc st user_id role_id =
      .error (.integrityError "user does not have role") := by
  have huid : user.id = user_id := by
    have := List.find?_some huser
    simpa using this
  have hmem : role.id ∉ user.roles := by simpa using hnot
  have h1 : assign_role svc st user_id role_id =
      .ok ({ user with roles := user.roles ++ [role.id] },
        st.updateUser { user with roles := user.roles ++ [role.id] }) := by
    simp [assign_role, hconf, huser, hrole, hmem]
  have hfind1 : findUserById
      (st.updateUser { user with roles := user.roles ++ [role.id] })
      user_id = some { user with roles := user.roles ++ [role.id] } := by
    unfold findUserById RepoState.updateUser
    exact find?_update_of_found st.users user_id user _ huid huser
  have hrole1 : findRoleById
      (st.updateUser { user with roles := user.roles ++ [role.id] })
      role_id = some role := by
    simpa [findRoleById, RepoState.updateUser] using hrole
  constructor
  · refine ⟨_, _, h1, ?_⟩
    simp [assign_role, hconf, hfind1, hrole1]
  · simp [revoke_role, hconf, huser, hrole, hmem]

/-- Witness for C6 with `aliceX` and the `admin` role. -/
theorem assign_assign_revoke_role_conflict_witness :
    (∃ u1 st1, assign_role svcX stX 1 7 = .ok (u1, st1) ∧
      assign_role svcX st1 1 7 =
        .error (.integrityError "user already has role")) ∧
    revoke_role svcX stX 1 7 =
      .error (.integrityError "user does not have role") :=
  assign_assign_revoke_role_conflict svcX stX 1 7 aliceX ⟨7, "admin"⟩
    (by decide) (by decide) (by decide) (by decide)

/-- C8: an associate-callback whose state token decodes successfully but
whose `sub` claim differs from the stringified id of the authenticated
user fails with a 400 response; the error result carries no state change,
so no OAuth account is attached. -/
theorem associate_callback_sub_mismatch_rejected (svc : UserService)
    (st : RepoState) (associate_user : User) (state : StateToken)
    (state_secret : String) (d : OAuthAccountData) (now freshAcctId : Nat)
    (claims : List (String × String)) (sub : String)
    (hconf : svc.oauth2_configured = true)
    (hdec : decode_jwt state state_secret [STATE_TOKEN_AUDIENCE] now =
      .ok claims)
    (hsub : lookupKey claims "sub" = some sub)
    (hne : sub ≠ toString associate_user.id) :
    oauth2_associate_callback svc st associate_user state state_secret d
      now freshAcctId = .error (.httpException 400 "") := by
  simp [oauth2_associate_callback, hconf, hdec, hsub, hne]

/-- A state token carrying a foreign subject, used by the C8 witness. -/
def stateTokenBadSubX : StateToken :=
  generate_state_token [("sub", "999")] "ssec" 3600 0

/-- Witness for C8: a state token with `sub = "999"` presented for
`aliceX` (id 1). -/
theorem associate_callback_sub_mismatch_rejected_witness :
    oauth2_associate_callback svcX stX aliceX stateTokenBadSubX "ssec"
      ⟨"google", "tok", "gid1", "Alice@Example.com", none, none⟩ 100 60 =
      .error (.httpException 400 "") :=
  associate_callback_sub_mismatch_rejected svcX stX aliceX
    stateTokenBadSubX "ssec"
    ⟨"google", "tok", "gid1", "Alice@Example.com", none, none⟩ 100 60
    (setKey [("sub", "999")] "aud" STATE_TOKEN_AUDIENCE) "999"
    (by decide) rfl rfl (by decide)

/-- C10: an associate-callback whose state token decodes successfully but
carries no `sub` claim (for example one issued by `generate_state_token`
with state data lacking `sub`) raises the uncaught key-lookup error
(`KeyError`), not the 400 response produced for a subject mismatch. -/
theorem associate_callback_missing_sub_keyerror (svc : UserService)
    (st : RepoState) (associate_user : User)
    (data : List (String × String)) (secret : String)
    (lifetime issued now freshAcctId : Nat) (d : OAuthAccountData)
    (hconf : svc.oauth2_configured = true)
    (hexp : now < issued + lifetime)
    (hnosub : lookupKey data "sub" = none) :
    oauth2_associate_callback svc st associate_user
      (generate_state_token data secret lifetime issued) secret d now
      freshAcctId = .error (.keyError "sub") := by
  have hfind : data.find? (fun p => p.1 == "sub") = none := by
    simpa [lookupKey, Option.map_eq_none'] using hnosub
  simp [oauth2_associate_callback, decode_jwt, generate_state_token,
    generate_jwt, hconf, hexp, hfind, setKey, lookupKey,
    STATE_TOKEN_AUDIENCE]

/-- Witness for C10: a state token issued with empty state data. -/
theorem associate_callback_missing_sub_keyerror_witness :
    oauth2_associate_callback svcX stX aliceX
      (generate_state_token [] "ssec" 3600 0) "ssec"
      ⟨"google", "tok", "gid1", "Alice@Example.com", none, none⟩ 100 60 =
      .error (.keyError "sub") :=
  associate_callback_missing_sub_keyerror svcX stX aliceX [] "ssec"
    3600 0 100 60 ⟨"google", "tok", "gid1", "Alice@Example.com", none, none⟩
    (by decide) (by decide) (by decide)

/-- The provider data arriving at the C1 failing input: a brand-new
`(google, gid1)` account whose email matches `aliceX`. -/
def oauthDataX : OAuthAccountData :=
  ⟨"google", "tok", "gid1", "Alice@Example.com", none, none⟩

/-- The account row the buggy branch attaches to `aliceX`. -/
def linkedAcctX : OAuthAccount :=
  ⟨60, 1, "google", "gid1", "Alice@Example.com", "tok", none, none⟩

/-- `aliceX` after the callback attached the provider account. -/
def aliceLinkedX : User :=
  { aliceX with oauth_accounts := [linkedAcctX] }

/-- C1, evaluated at the failing input: with `associate_by_email = false`,
no OAuthAccount for `(google, gid1)`, and an existing local user whose
email equals the provider email, `_oauth2_callback` does not fail with the
400 "already exists" error the claim requires — it succeeds and attaches
the OAuth account to the matched user, because the code consults
`associate_by_email` only in the branch where no user with the provider
email exists. -/
theorem oauth2_callback_associates_despite_disabled_policy :
    oauth2_callback_flow svcX stX "google" "gid1" "Alice@Example.com"
      false false (generate_state_token [] "ssec" 3600 0) "ssec" oauthDataX
      100 50 60 "genpw" =
      .ok (aliceLinkedX, ⟨[aliceLinkedX, carolX], rolesX⟩, []) := by
  rfl

end LitestarUsers
